import Mathlib

/-!
Shallow embedding of `src/src/main.rs` (observer-pattern weather station).

Modelling conventions:
* Rust `i32` measurements are modelled as `Int`; the program only ever works
  with small values (bases 10/40/700, deltas 10/60/90, windows of at most 10
  entries), so 32-bit wrap-around never engages and is not modelled.
* The private random state of a `DataGen` (`rand::ThreadRng` plus a uniform
  `Range(0, delta)`) is modelled as an oracle `offsets : Nat → Int` giving the
  successive draws of `rang.ind_sample`, together with a position counter.
* Rust panics demanded by the spec's error taxonomy are modelled as `Except`
  values: `Range::new(0, delta)` asserts `low < high`, mapped to
  `AppError.invalidConfiguration`; `list.front().unwrap()` on an empty history
  panics, mapped to `AppError.emptyHistory`.
* `std::collections::HashMap<String, Box<Observer>>` is modelled as an
  association list with overwrite-on-insert; iteration order of the map is
  unspecified in Rust and no theorem below depends on the list order.
* `println!` output is side-effect only; `display` is modelled as the pure
  tuple of numbers that would be printed, with `f32` averages modelled as
  exact rationals (`ℚ`).
-/

namespace PatternObserver

/-- Error taxonomy of spec §7 for the panics the source can hit. -/
inductive AppError where
  | invalidConfiguration
  | emptyHistory
deriving DecidableEq, Repr

/-! ## mod data: DataGen -/

/-- `data::DataGen`: base, range width, private randomness (as an oracle of
successive draws) and how many draws have been consumed. -/
structure DataGen where
  base : Int
  delta : Int
  offsets : Nat → Int
  pos : Nat

/-- `DataGen::new(base, delta)`: `Range::new(0, delta)` asserts `low < high`,
i.e. requires `0 < delta`; a non-positive `delta` is the spec's
`InvalidConfiguration`. -/
def DataGen.new (base delta : Int) (offsets : Nat → Int) : Except AppError DataGen :=
  if delta ≤ 0 then .error .invalidConfiguration
  else .ok { base := base, delta := delta, offsets := offsets, pos := 0 }

/-- `Iterator::next` for `DataGen`: `Some(self.base + self.rang.ind_sample(..))`.
Always `some`; the sampled offset is the next oracle value. -/
def DataGen.next (g : DataGen) : Option Int × DataGen :=
  (some (g.base + g.offsets g.pos), { g with pos := g.pos + 1 })

/-- The value/state of `next().unwrap()` — safe because `next` never
returns `None`. -/
def DataGen.nextUnwrap (g : DataGen) : Int × DataGen :=
  (g.base + g.offsets g.pos, { g with pos := g.pos + 1 })

/-- The generator state after `k` calls to `next`. -/
def iterGen (g : DataGen) : Nat → DataGen
  | 0 => g
  | k + 1 => ((iterGen g k).next).2

/-! ## mod weather: WeatherRecord -/

/-- `weather::WeatherRecord` (`Copy`-able value of three `i32` readings). -/
structure WeatherRecord where
  temperature : Int
  humidity : Int
  pressure : Int
deriving DecidableEq, Repr

/-- `WeatherRecord::new()`: the zero-valued placeholder record. -/
def WeatherRecord.new : WeatherRecord :=
  { temperature := 0, humidity := 0, pressure := 0 }

/-! ## mod widget: WidgetCurrent -/

/-- `widget::WidgetCurrent`: a name and the most recent record. -/
structure WidgetCurrent where
  name : String
  current : WeatherRecord
deriving DecidableEq, Repr

/-- `WidgetCurrent::new(name)`. -/
def WidgetCurrent.new (name : String) : WidgetCurrent :=
  { name := name, current := WeatherRecord.new }

/-- `Observer::update` for `WidgetCurrent`: store the record (the `display`
call only prints). -/
def WidgetCurrent.update (w : WidgetCurrent) (record : WeatherRecord) : WidgetCurrent :=
  { w with current := record }

/-! ## mod widget: WidgetStatistic -/

/-- `widget::WidgetStatistic`: three bounded histories (`LinkedList`,
oldest at the front) sharing one capacity field. -/
structure WidgetStatistic where
  name : String
  history_length : Nat
  history_temp : List Int
  history_humid : List Int
  history_press : List Int
deriving DecidableEq, Repr

/-- `WidgetStatistic::new(name)`: capacity is unconditionally 10. -/
def WidgetStatistic.new (name : String) : WidgetStatistic :=
  { name := name, history_length := 10,
    history_temp := [], history_humid := [], history_press := [] }

/-- One branch of `strip_list`: `if l.len() >= cap { l.pop_front(); }`. -/
def stripOne (cap : Nat) (l : List Int) : List Int :=
  if l.length ≥ cap then l.tail else l

/-- `WidgetStatistic::strip_list`: each of the three histories is stripped
independently against the shared capacity. -/
def WidgetStatistic.strip_list (w : WidgetStatistic) : WidgetStatistic :=
  { w with
    history_temp := stripOne w.history_length w.history_temp,
    history_humid := stripOne w.history_length w.history_humid,
    history_press := stripOne w.history_length w.history_press }

/-- `Observer::update` for `WidgetStatistic`: push the three fields to the
back of their histories, then `strip_list` (the trailing `display` call only
prints). -/
def WidgetStatistic.update (w : WidgetStatistic) (record : WeatherRecord) : WidgetStatistic :=
  ({ w with
      history_temp := w.history_temp ++ [record.temperature],
      history_humid := w.history_humid ++ [record.humidity],
      history_press := w.history_press ++ [record.pressure] }).strip_list

/-- Delivering a whole sequence of updates, oldest first. -/
def WidgetStatistic.updates (w : WidgetStatistic) (rs : List WeatherRecord) : WidgetStatistic :=
  rs.foldl WidgetStatistic.update w

/-- Effect of one `update` on a single history list (push back, then strip). -/
def histStep (cap : Nat) (l : List Int) (v : Int) : List Int :=
  stripOne cap (l ++ [v])

/-- Loop body of `WidgetStatistic::statistic`: strict comparisons for min and
max, running accumulation for sum. -/
def statLoop (mn mx sum : Int) : List Int → Int × Int × Int
  | [] => (mn, mx, sum)
  | curr :: rest =>
      statLoop (if mn > curr then curr else mn) (if mx < curr then curr else mx)
        (sum + curr) rest

/-- `WidgetStatistic::statistic`: `list.front().unwrap()` seeds min/max/sum
(panicking on an empty history — `EmptyHistory`), then a linear scan over the
remaining elements. -/
def statistic : List Int → Except AppError (Int × Int × Int)
  | [] => .error .emptyHistory
  | first :: rest => .ok (statLoop first first first rest)

/-- One println line of `WidgetStatistic::display`: the statistic triple of a
history together with `sum as f32 / L as f32`, where `L` is the length the
source chooses to divide by (for pressure this is the humidity length). -/
def statLine (l : List Int) (L : Nat) : Except AppError (Int × Int × ℚ) :=
  match statistic l with
  | .error e => .error e
  | .ok (mn, mx, sum) => .ok (mn, mx, (sum : ℚ) / (L : ℚ))

/-- `WidgetStatistic::display`, as the pure numbers printed: temperature
divides by the temperature length, humidity by the humidity length, and
pressure by the HUMIDITY length (the source's latent cross-reference bug). -/
def WidgetStatistic.display (w : WidgetStatistic) :
    Except AppError ((Int × Int × ℚ) × (Int × Int × ℚ) × (Int × Int × ℚ)) :=
  match statLine w.history_temp w.history_temp.length,
      statLine w.history_humid w.history_humid.length,
      statLine w.history_press w.history_humid.length with
  | .ok a, .ok b, .ok c => .ok (a, b, c)
  | .error e, _, _ => .error e
  | _, .error e, _ => .error e
  | _, _, .error e => .error e

/-! ## mod observer / mod weather: Observer objects and the station -/

/-- The two `Observer<WeatherRecord>` implementations of the source. -/
inductive Observer where
  | current (w : WidgetCurrent)
  | stat (w : WidgetStatistic)
deriving DecidableEq, Repr

/-- Trait-object dispatch of `Observer::update`. -/
def Observer.update : Observer → WeatherRecord → Observer
  | .current w, record => .current (w.update record)
  | .stat w, record => .stat (w.update record)

/-- Trait-object dispatch of `Observer::name`. -/
def Observer.name : Observer → String
  | .current w => w.name
  | .stat w => w.name

/-- `HashMap::insert`: overwrite the binding for `k` if present, else add it. -/
def insertAssoc (k : String) (v : Observer) :
    List (String × Observer) → List (String × Observer)
  | [] => [(k, v)]
  | (k1, v1) :: rest =>
      if k1 = k then (k, v) :: rest else (k1, v1) :: insertAssoc k v rest

/-- `HashMap::remove`: drop the binding for `k` if present. -/
def removeAssoc (k : String) :
    List (String × Observer) → List (String × Observer)
  | [] => []
  | (k1, v1) :: rest =>
      if k1 = k then rest else (k1, v1) :: removeAssoc k rest

/-- `HashMap::get`-style lookup used to state map properties. -/
def lookupAssoc (k : String) : List (String × Observer) → Option Observer
  | [] => none
  | (k1, v1) :: rest => if k1 = k then some v1 else lookupAssoc k rest

/-- `weather::WeatherData`: three generators and the observer map. -/
structure WeatherData where
  temperature : DataGen
  humidity : DataGen
  pressure : DataGen
  observers : List (String × Observer)

/-- `WeatherData::new()`: the three generators are `DataGen::new(10, 10)`,
`(40, 60)`, `(700, 90)` — all deltas positive, so each construction is the
`.ok` branch of `DataGen.new` — and an empty observer map. -/
def WeatherData.new (ot oh op : Nat → Int) : WeatherData :=
  { temperature := { base := 10, delta := 10, offsets := ot, pos := 0 },
    humidity := { base := 40, delta := 60, offsets := oh, pos := 0 },
    pressure := { base := 700, delta := 90, offsets := op, pos := 0 },
    observers := [] }

/-- `Observable::register`: key the observer by its self-declared name,
insert (overwriting), and return the name. -/
def WeatherData.register (wd : WeatherData) (o : Observer) : String × WeatherData :=
  (o.name, { wd with observers := insertAssoc o.name o wd.observers })

/-- `Observable::remove`: `self.observers.remove(&name)` (no-op when absent). -/
def WeatherData.remove (wd : WeatherData) (name : String) : WeatherData :=
  { wd with observers := removeAssoc name wd.observers }

/-- `Observable::notify`: invoke `update` with the same record on every
registered observer, synchronously. -/
def WeatherData.notify (wd : WeatherData) (record : WeatherRecord) : WeatherData :=
  { wd with observers := wd.observers.map (fun p => (p.1, p.2.update record)) }

/-- `WeatherData::get_temperature`: `self.temperature.next().unwrap()`. -/
def WeatherData.get_temperature (wd : WeatherData) : Int × WeatherData :=
  let r := wd.temperature.nextUnwrap
  (r.1, { wd with temperature := r.2 })

/-- `WeatherData::get_humidity`: `self.humidity.next().unwrap()`. -/
def WeatherData.get_humidity (wd : WeatherData) : Int × WeatherData :=
  let r := wd.humidity.nextUnwrap
  (r.1, { wd with humidity := r.2 })

/-- `WeatherData::get_pressure`: `self.pressure.next().unwrap()`. -/
def WeatherData.get_pressure (wd : WeatherData) : Int × WeatherData :=
  let r := wd.pressure.nextUnwrap
  (r.1, { wd with pressure := r.2 })

/-- `WeatherData::measurements_changed`: draw one value from each generator in
the struct-literal's textual order (temperature, humidity, pressure), build
one record, and notify. -/
def WeatherData.measurements_changed (wd : WeatherData) : WeatherData :=
  let t := wd.get_temperature
  let h := t.2.get_humidity
  let p := h.2.get_pressure
  p.2.notify { temperature := t.1, humidity := h.1, pressure := p.1 }

/-! ## Concrete fixtures used by witness theorems -/

/-- A degenerate randomness oracle (every draw is 0). -/
def zeroOffsets : Nat → Int := fun _ => 0

/-- A station with no registered observers. -/
def testStation : WeatherData := WeatherData.new zeroOffsets zeroOffsets zeroOffsets

/-- A statistics widget with empty histories and an explicit capacity, for
stating window properties at capacities other than the constructor's 10. -/
def mkStat (name : String) (cap : Nat) : WidgetStatistic :=
  { name := name, history_length := cap,
    history_temp := [], history_humid := [], history_press := [] }

/-- A record whose humidity and pressure are held fixed (50, 750) while the
temperature varies, as in the spec's end-to-end scenario. -/
def tempRecord (t : Int) : WeatherRecord :=
  { temperature := t, humidity := 50, pressure := 750 }

/-- A current-reading listener declaring id "A". -/
def obsA : Observer := Observer.current (WidgetCurrent.new "A")

/-- A statistics listener also declaring id "A" (collides with `obsA`). -/
def obsA2 : Observer := Observer.stat (WidgetStatistic.new "A")

/-- A statistics listener declaring the distinct id "B". -/
def obsB : Observer := Observer.stat (WidgetStatistic.new "B")

/-! ## Helper lemmas -/

lemma update_histories (w : WidgetStatistic) (r : WeatherRecord) :
    (w.update r).name = w.name ∧
    (w.update r).history_length = w.history_length ∧
    (w.update r).history_temp = histStep w.history_length w.history_temp r.temperature ∧
    (w.update r).history_humid = histStep w.history_length w.history_humid r.humidity ∧
    (w.update r).history_press = histStep w.history_length w.history_press r.pressure := by
  refine ⟨rfl, rfl, rfl, rfl, rfl⟩

lemma updates_eq (rs : List WeatherRecord) : ∀ w : WidgetStatistic,
    w.updates rs =
      { name := w.name, history_length := w.history_length,
        history_temp :=
          (rs.map WeatherRecord.temperature).foldl (histStep w.history_length) w.history_temp,
        history_humid :=
          (rs.map WeatherRecord.humidity).foldl (histStep w.history_length) w.history_humid,
        history_press :=
          (rs.map WeatherRecord.pressure).foldl (histStep w.history_length) w.history_press } := by
  induction rs with
  | nil => intro w; cases w; rfl
  | cons r rs ih =>
      intro w
      show (w.update r).updates rs = _
      rw [ih (w.update r)]
      rfl

lemma foldl_histStep_eq (cap : Nat) (hcap : 1 ≤ cap) (vs : List Int) :
    List.foldl (histStep cap) [] vs = vs.drop (vs.length - (cap - 1)) := by
  induction vs using List.reverseRecOn with
  | nil => simp
  | append_singleton vs v ih =>
      rw [List.foldl_append, ih]
      simp only [List.foldl_cons, List.foldl_nil]
      have hlen2 : (vs ++ [v]).length = vs.length + 1 := by simp
      rcases Nat.lt_or_ge vs.length (cap - 1) with hlt | hge
      · have h0 : vs.length - (cap - 1) = 0 := by omega
        have h1 : vs.length + 1 - (cap - 1) = 0 := by omega
        have hcond : ¬ ((vs ++ [v]).length ≥ cap) := by omega
        rw [h0, List.drop_zero, hlen2, h1, List.drop_zero, histStep, stripOne,
          if_neg hcond]
      · have hlen : (vs.drop (vs.length - (cap - 1))).length = cap - 1 := by
          rw [List.length_drop]; omega
        have hcond : (vs.drop (vs.length - (cap - 1)) ++ [v]).length ≥ cap := by
          simp only [List.length_append, hlen, List.length_cons, List.length_nil]
          omega
        have hd : vs.drop (vs.length - (cap - 1)) ++ [v] =
            (vs ++ [v]).drop (vs.length - (cap - 1)) := by
          rw [List.drop_append_of_le_length (by omega)]
        have htail : ∀ (l : List Int) (n : Nat), (l.drop n).tail = l.drop (n + 1) := by
          intro l n
          rw [← List.drop_one, List.drop_drop, Nat.add_comm]
        rw [histStep, stripOne, if_pos hcond, hd, htail]
        congr 1
        omega

lemma updates_new (name : String) (rs : List WeatherRecord) :
    ((WidgetStatistic.new name).updates rs).history_temp =
      (rs.map WeatherRecord.temperature).drop (rs.length - 9) ∧
    ((WidgetStatistic.new name).updates rs).history_humid =
      (rs.map WeatherRecord.humidity).drop (rs.length - 9) ∧
    ((WidgetStatistic.new name).updates rs).history_press =
      (rs.map WeatherRecord.pressure).drop (rs.length - 9) ∧
    ((WidgetStatistic.new name).updates rs).history_length = 10 := by
  rw [updates_eq]
  refine ⟨?_, ?_, ?_, rfl⟩ <;>
  · show List.foldl (histStep 10) [] _ = _
    rw [foldl_histStep_eq 10 (by norm_num)]
    simp [List.length_map]

lemma statLoop_eq (l : List Int) : ∀ mn mx s : Int,
    statLoop mn mx s l = (l.foldl min mn, l.foldl max mx, s + l.sum) := by
  induction l with
  | nil => intro mn mx s; simp [statLoop]
  | cons c rest ih =>
      intro mn mx s
      have hmin : (if mn > c then c else mn) = min mn c := by
        rcases le_or_lt mn c with h | h
        · rw [if_neg (not_lt.mpr h), min_eq_left h]
        · rw [if_pos h, min_eq_right (le_of_lt h)]
      have hmax : (if mx < c then c else mx) = max mx c := by
        rcases le_or_lt c mx with h | h
        · rw [if_neg (not_lt.mpr h), max_eq_left h]
        · rw [if_pos h, max_eq_right (le_of_lt h)]
      rw [statLoop, ih, hmin, hmax]
      simp only [List.foldl_cons, List.sum_cons, add_assoc]

lemma foldl_min_le_start (l : List Int) : ∀ a : Int, l.foldl min a ≤ a := by
  induction l with
  | nil => intro a; exact le_refl a
  | cons c rest ih =>
      intro a; exact le_trans (ih (min a c)) (min_le_left a c)

lemma foldl_min_le_mem (l : List Int) : ∀ a b : Int, b ∈ l → l.foldl min a ≤ b := by
  induction l with
  | nil => intro a b hb; cases hb
  | cons c rest ih =>
      intro a b hb
      rcases List.mem_cons.mp hb with h | h
      · subst h
        exact le_trans (foldl_min_le_start rest (min a b)) (min_le_right a b)
      · exact ih (min a c) b h

lemma foldl_min_mem (l : List Int) : ∀ a : Int, l.foldl min a = a ∨ l.foldl min a ∈ l := by
  induction l with
  | nil => intro a; exact Or.inl rfl
  | cons c rest ih =>
      intro a
      rcases ih (min a c) with h | h
      · rcases min_choice a c with hm | hm
        · exact Or.inl (by rw [List.foldl_cons, h, hm])
        · refine Or.inr ?_
          rw [List.foldl_cons, h, hm]
          exact List.mem_cons_self c rest
      · exact Or.inr (List.mem_cons_of_mem c h)

lemma foldl_max_ge_start (l : List Int) : ∀ a : Int, a ≤ l.foldl max a := by
  induction l with
  | nil => intro a; exact le_refl a
  | cons c rest ih =>
      intro a; exact le_trans (le_max_left a c) (ih (max a c))

lemma foldl_max_ge_mem (l : List Int) : ∀ a b : Int, b ∈ l → b ≤ l.foldl max a := by
  induction l with
  | nil => intro a b hb; cases hb
  | cons c rest ih =>
      intro a b hb
      rcases List.mem_cons.mp hb with h | h
      · subst h
        exact le_trans (le_max_right a b) (foldl_max_ge_start rest (max a b))
      · exact ih (max a c) b h

lemma foldl_max_mem (l : List Int) : ∀ a : Int, l.foldl max a = a ∨ l.foldl max a ∈ l := by
  induction l with
  | nil => intro a; exact Or.inl rfl
  | cons c rest ih =>
      intro a
      rcases ih (max a c) with h | h
      · rcases max_choice a c with hm | hm
        · exact Or.inl (by rw [List.foldl_cons, h, hm])
        · refine Or.inr ?_
          rw [List.foldl_cons, h, hm]
          exact List.mem_cons_self c rest
      · exact Or.inr (List.mem_cons_of_mem c h)

lemma statistic_cons (a : Int) (rest : List Int) :
    statistic (a :: rest) =
      .ok (rest.foldl min a, rest.foldl max a, (a :: rest).sum) := by
  show Except.ok (statLoop a a a rest) = _
  rw [statLoop_eq, List.sum_cons]

lemma removeAssoc_of_absent (k : String) :
    ∀ m : List (String × Observer), lookupAssoc k m = none → removeAssoc k m = m := by
  intro m
  induction m with
  | nil => intro _; rfl
  | cons p rest ih =>
      intro h
      rw [lookupAssoc] at h
      by_cases hk : p.1 = k
      · rw [if_pos hk] at h; cases h
      · rw [if_neg hk] at h
        show removeAssoc k (p :: rest) = p :: rest
        obtain ⟨k1, v1⟩ := p
        rw [removeAssoc, if_neg hk, ih h]

lemma iterGen_params (g : DataGen) : ∀ k : Nat,
    (iterGen g k).base = g.base ∧ (iterGen g k).delta = g.delta ∧
    (iterGen g k).offsets = g.offsets := by
  intro k
  induction k with
  | zero => exact ⟨rfl, rfl, rfl⟩
  | succ k ih => exact ⟨ih.1, ih.2.1, ih.2.2⟩

/-! ## Claim theorems -/

/-- C1 counterexample: with capacity 3 and temperature inputs
[10, 20, 30, 40], the fourth update leaves temperature history [30, 40]
(length 2), not the claimed most-recent-3 window [20, 30, 40] of length
min 4 3: `strip_list` evicts with `len() >= history_length` AFTER the push,
so at most `capacity - 1` values survive an update. -/
theorem window_claim_counterexample :
    ((mkStat "S" 3).updates ([10, 20, 30, 40].map tempRecord)).history_temp ≠ [20, 30, 40] ∧
    ((mkStat "S" 3).updates ([10, 20, 30, 40].map tempRecord)).history_temp.length ≠ min 4 3 ∧
    ((mkStat "S" 3).updates ([10, 20, 30, 40].map tempRecord)).history_temp = [30, 40] := by
  refine ⟨by decide, by decide, by decide⟩

/-- C1 (amended): after M ≥ 1 updates on a StatisticsView with capacity
N ≥ 1, each retained history holds exactly the most recent min(M, N-1)
delivered values, oldest first (so length min(M, N-1)). -/
theorem window_retains_recent_values (N : Nat) (hN : 1 ≤ N) (name : String)
    (rs : List WeatherRecord) (hM : 1 ≤ rs.length) :
    ((mkStat name N).updates rs).history_temp =
      (rs.map WeatherRecord.temperature).drop (rs.length - (N - 1)) ∧
    ((mkStat name N).updates rs).history_humid =
      (rs.map WeatherRecord.humidity).drop (rs.length - (N - 1)) ∧
    ((mkStat name N).updates rs).history_press =
      (rs.map WeatherRecord.pressure).drop (rs.length - (N - 1)) ∧
    ((mkStat name N).updates rs).history_temp.length = min rs.length (N - 1) ∧
    ((mkStat name N).updates rs).history_humid.length = min rs.length (N - 1) ∧
    ((mkStat name N).updates rs).history_press.length = min rs.length (N - 1) := by
  rw [updates_eq]
  have ht : List.foldl (histStep N) ([] : List Int) (rs.map WeatherRecord.temperature) =
      (rs.map WeatherRecord.temperature).drop (rs.length - (N - 1)) := by
    rw [foldl_histStep_eq N hN]; simp [List.length_map]
  have hh : List.foldl (histStep N) ([] : List Int) (rs.map WeatherRecord.humidity) =
      (rs.map WeatherRecord.humidity).drop (rs.length - (N - 1)) := by
    rw [foldl_histStep_eq N hN]; simp [List.length_map]
  have hp : List.foldl (histStep N) ([] : List Int) (rs.map WeatherRecord.pressure) =
      (rs.map WeatherRecord.pressure).drop (rs.length - (N - 1)) := by
    rw [foldl_histStep_eq N hN]; simp [List.length_map]
  refine ⟨ht, hh, hp, ?_, ?_, ?_⟩ <;>
  · show (List.foldl (histStep N) [] _).length = _
    rw [foldl_histStep_eq N hN]
    simp only [List.length_drop, List.length_map]
    omega

/-- C1 witness: at capacity 3 with temperatures [10, 20, 30, 40] the
retained temperature history is [30, 40]. -/
theorem window_retains_recent_values_witness :
    ((mkStat "S" 3).updates ([10, 20, 30, 40].map tempRecord)).history_temp = [30, 40] ∧
    ((mkStat "S" 3).updates ([10, 20, 30, 40].map tempRecord)).history_temp.length = min 4 2 := by
  have h := window_retains_recent_values 3 (by norm_num) "S"
    ([10, 20, 30, 40].map tempRecord) (by norm_num)
  refine ⟨?_, ?_⟩
  · rw [h.1]; decide
  · rw [h.2.2.2.1]; decide

/-- C2: on a non-empty history the single linear scan of `statistic` returns
a triple (min, max, sum) with min and max attained bounds and sum the
arithmetic sum, and the rendered average is sum divided by the window
length (f32 modelled as ℚ). -/
theorem statistic_minmaxsum (l : List Int) (h : l ≠ []) :
    ∃ mn mx s, statistic l = .ok (mn, mx, s) ∧ mn ∈ l ∧ mx ∈ l ∧
      (∀ b ∈ l, mn ≤ b ∧ b ≤ mx) ∧ s = l.sum ∧
      statLine l l.length = .ok (mn, mx, (l.sum : ℚ) / (l.length : ℚ)) := by
  obtain ⟨a, rest, rfl⟩ := List.exists_cons_of_ne_nil h
  refine ⟨rest.foldl min a, rest.foldl max a, (a :: rest).sum,
    statistic_cons a rest, ?_, ?_, ?_, rfl, ?_⟩
  · rcases foldl_min_mem rest a with h1 | h1
    · rw [h1]; exact List.mem_cons_self a rest
    · exact List.mem_cons_of_mem a h1
  · rcases foldl_max_mem rest a with h1 | h1
    · rw [h1]; exact List.mem_cons_self a rest
    · exact List.mem_cons_of_mem a h1
  · intro b hb
    rcases List.mem_cons.mp hb with h1 | h1
    · subst h1
      exact ⟨foldl_min_le_start rest b, foldl_max_ge_start rest b⟩
    · exact ⟨foldl_min_le_mem rest a b h1, foldl_max_ge_mem rest a b h1⟩
  · rw [statLine, statistic_cons]

/-- C2 witness: the scan of [3, 1, 2] yields min 1, max 3, sum 6 and
average 2. -/
theorem statistic_minmaxsum_witness :
    ([3, 1, 2] : List Int) ≠ [] ∧
    (∃ mn mx s, statistic ([3, 1, 2] : List Int) = .ok (mn, mx, s) ∧
      mn ∈ ([3, 1, 2] : List Int) ∧ mx ∈ ([3, 1, 2] : List Int) ∧
      (∀ b ∈ ([3, 1, 2] : List Int), mn ≤ b ∧ b ≤ mx) ∧
      s = ([3, 1, 2] : List Int).sum ∧
      statLine ([3, 1, 2] : List Int) ([3, 1, 2] : List Int).length =
        .ok (mn, mx, (([3, 1, 2] : List Int).sum : ℚ) /
          ((([3, 1, 2] : List Int).length : ℚ)))) :=
  ⟨by decide, statistic_minmaxsum [3, 1, 2] (by decide)⟩

/-- C3: rendering a StatisticsView that has never been updated fails with
EmptyHistory (`front().unwrap()` on the empty temperature history), as does
the statistic scan of any empty history. -/
theorem display_before_any_update (name : String) :
    (WidgetStatistic.new name).display = .error .emptyHistory ∧
    statistic ([] : List Int) = .error .emptyHistory :=
  ⟨rfl, rfl⟩

/-- C4: in every state reachable from construction by a sequence of updates,
the three histories have equal lengths, so dividing the pressure sum by the
humidity history's length (as `display` does) equals dividing it by the
pressure history's length. -/
theorem pressure_average_denominator (name : String) (rs : List WeatherRecord) :
    (((WidgetStatistic.new name).updates rs).history_temp.length =
        ((WidgetStatistic.new name).updates rs).history_humid.length ∧
      ((WidgetStatistic.new name).updates rs).history_humid.length =
        ((WidgetStatistic.new name).updates rs).history_press.length) ∧
    statLine ((WidgetStatistic.new name).updates rs).history_press
        ((WidgetStatistic.new name).updates rs).history_humid.length =
      statLine ((WidgetStatistic.new name).updates rs).history_press
        ((WidgetStatistic.new name).updates rs).history_press.length := by
  obtain ⟨ht, hh, hp, _⟩ := updates_new name rs
  have hth : ((WidgetStatistic.new name).updates rs).history_temp.length =
      ((WidgetStatistic.new name).updates rs).history_humid.length := by
    rw [ht, hh]
    simp [List.length_drop, List.length_map]
  have hhp : ((WidgetStatistic.new name).updates rs).history_humid.length =
      ((WidgetStatistic.new name).updates rs).history_press.length := by
    rw [hh, hp]
    simp [List.length_drop, List.length_map]
  exact ⟨⟨hth, hhp⟩, by rw [hhp]⟩

/-- C10: the StatisticsView constructor takes only a name and pins the
history capacity to 10; no update sequence ever changes it. -/
theorem capacity_always_ten (name : String) (rs : List WeatherRecord) :
    (WidgetStatistic.new name).history_length = 10 ∧
    ((WidgetStatistic.new name).updates rs).history_length = 10 :=
  ⟨rfl, (updates_new name rs).2.2.2⟩

/-- C5: `register` returns the listener's self-declared id and inserts it
under that id, overwriting; registering two listeners under one id on a
fresh station leaves only the second in the map, so a later `notify`
updates only the second. -/
theorem register_overwrite (wd : WeatherData) (o1 o2 : Observer) (r : WeatherRecord)
    (hname : o1.name = o2.name) (hobs : wd.observers = []) :
    (wd.register o1).1 = o1.name ∧
    ((wd.register o1).2.register o2).1 = o2.name ∧
    ((wd.register o1).2.register o2).2.observers = [(o2.name, o2)] ∧
    (((wd.register o1).2.register o2).2.notify r).observers =
      [(o2.name, o2.update r)] := by
  refine ⟨rfl, rfl, ?_, ?_⟩ <;>
    simp [WeatherData.register, WeatherData.notify, insertAssoc, hobs, hname]

/-- C5 witness: registering `obsA` then `obsA2` (both id "A") on the empty
station keeps only `obsA2`, which alone receives the notified record. -/
theorem register_overwrite_witness :
    ((testStation.register obsA).2.register obsA2).2.observers = [(obsA2.name, obsA2)] ∧
    (((testStation.register obsA).2.register obsA2).2.notify (tempRecord 5)).observers =
      [(obsA2.name, obsA2.update (tempRecord 5))] := by
  have h := register_overwrite testStation obsA obsA2 (tempRecord 5) rfl rfl
  exact ⟨h.2.2.1, h.2.2.2⟩

/-- C6: `remove` of an absent id leaves the observer map unchanged (a no-op,
not an error); after registering two listeners with distinct ids on a fresh
station and removing the first by id, a later `notify` updates only the
remaining listener. -/
theorem remove_absent_noop (wd wd0 : WeatherData) (idA : String)
    (o1 o2 : Observer) (r : WeatherRecord)
    (habs : lookupAssoc idA wd.observers = none)
    (hobs : wd0.observers = []) (hdist : o1.name ≠ o2.name) :
    (wd.remove idA).observers = wd.observers ∧
    (((wd0.register o1).2.register o2).2.remove o1.name).observers = [(o2.name, o2)] ∧
    ((((wd0.register o1).2.register o2).2.remove o1.name).notify r).observers =
      [(o2.name, o2.update r)] := by
  refine ⟨removeAssoc_of_absent idA wd.observers habs, ?_, ?_⟩ <;>
    simp [WeatherData.register, WeatherData.remove, WeatherData.notify,
      insertAssoc, removeAssoc, hobs, hdist]

/-- C6 witness: removing the never-registered id "Z" is a no-op, and after
registering ids "A" and "B" and removing "A", only "B" gets the record. -/
theorem remove_absent_noop_witness :
    (testStation.remove "Z").observers = testStation.observers ∧
    (((testStation.register obsA).2.register obsB).2.remove obsA.name).observers =
      [(obsB.name, obsB)] ∧
    ((((testStation.register obsA).2.register obsB).2.remove obsA.name).notify
        (tempRecord 7)).observers = [(obsB.name, obsB.update (tempRecord 7))] :=
  remove_absent_noop testStation testStation "Z" obsA obsB (tempRecord 7)
    rfl rfl (by decide)

/-- C7: `measurements_changed` draws exactly one value from each generator —
each advances by one position, in the struct-literal order temperature,
humidity, pressure — assembles one record from those three draws, and
`notify` applies `update` with that same record to every registered
observer, synchronously. -/
theorem measurements_changed_delivers (wd : WeatherData) :
    (wd.measurements_changed).observers =
      wd.observers.map (fun q => (q.1, q.2.update
        { temperature := wd.temperature.base + wd.temperature.offsets wd.temperature.pos,
          humidity := wd.humidity.base + wd.humidity.offsets wd.humidity.pos,
          pressure := wd.pressure.base + wd.pressure.offsets wd.pressure.pos })) ∧
    (wd.measurements_changed).temperature =
      { wd.temperature with pos := wd.temperature.pos + 1 } ∧
    (wd.measurements_changed).humidity =
      { wd.humidity with pos := wd.humidity.pos + 1 } ∧
    (wd.measurements_changed).pressure =
      { wd.pressure with pos := wd.pressure.pos + 1 } :=
  ⟨rfl, rfl, rfl, rfl⟩

/-- C8: every value a constructed generator (delta ≥ 1, offsets drawn from
[0, delta)) can ever produce lies in [base, base + delta), and `next` never
signals exhaustion. -/
theorem next_values_in_range (base delta : Int) (offsets : Nat → Int) (g : DataGen)
    (hnew : DataGen.new base delta offsets = .ok g)
    (hb : ∀ n, 0 ≤ offsets n ∧ offsets n < delta) (k : Nat) :
    ∃ v, ((iterGen g k).next).1 = some v ∧ base ≤ v ∧ v < base + delta := by
  have hg : g.base = base ∧ g.delta = delta ∧ g.offsets = offsets := by
    rw [DataGen.new] at hnew
    by_cases hd : delta ≤ 0
    · rw [if_pos hd] at hnew; cases hnew
    · rw [if_neg hd] at hnew
      injection hnew with h
      rw [← h]
      exact ⟨rfl, rfl, rfl⟩
  obtain ⟨pb, pd, po⟩ := iterGen_params g k
  refine ⟨(iterGen g k).base + (iterGen g k).offsets (iterGen g k).pos, rfl, ?_, ?_⟩
  · have h0 := (hb ((iterGen g k).pos)).1
    rw [pb, hg.1, po, hg.2.2]
    omega
  · have h1 := (hb ((iterGen g k).pos)).2
    rw [pb, hg.1, po, hg.2.2]
    omega

/-- C8 witness: the generator of base 10, delta 10 with the all-zero oracle
yields, at its fifth draw, a value in [10, 20). -/
theorem next_values_in_range_witness :
    ∃ v, ((iterGen { base := 10, delta := 10, offsets := zeroOffsets, pos := 0 } 4).next).1 =
        some v ∧ 10 ≤ v ∧ v < 10 + 10 :=
  next_values_in_range 10 10 zeroOffsets
    { base := 10, delta := 10, offsets := zeroOffsets, pos := 0 }
    rfl (fun n => by constructor <;> norm_num [zeroOffsets]) 4

/-- C9: `DataGen::new` fails with InvalidConfiguration exactly for a
non-positive range width, and succeeds (with position 0) for every
delta ≥ 1. -/
theorem new_validates_delta (base delta : Int) (offsets : Nat → Int) :
    (delta ≤ 0 → DataGen.new base delta offsets = .error .invalidConfiguration) ∧
    (1 ≤ delta → DataGen.new base delta offsets =
      .ok { base := base, delta := delta, offsets := offsets, pos := 0 }) := by
  constructor
  · intro h; rw [DataGen.new, if_pos h]
  · intro h; rw [DataGen.new, if_neg (by omega)]

/-- C9 witness: delta 0 is rejected with InvalidConfiguration; delta 1 is
accepted. -/
theorem new_validates_delta_witness :
    DataGen.new 5 0 zeroOffsets = .error .invalidConfiguration ∧
    DataGen.new 5 1 zeroOffsets =
      .ok { base := 5, delta := 1, offsets := zeroOffsets, pos := 0 } :=
  ⟨(new_validates_delta 5 0 zeroOffsets).1 (by norm_num),
   (new_validates_delta 5 1 zeroOffsets).2 (by norm_num)⟩

end PatternObserver
